import Mathlib

/-
Verification of the fragment control panel (src/src/ui/control_panel.py).

The panel is a Qt widget holding a selection state (no fragment, one
fragment, or a group of fragment ids) plus the states of its child
controls.  All controls live inside one of three group boxes
(`transform_group`, `position_group`, `display_group`); in Qt a child
widget is effectively enabled only when its own enabled flag AND its
parent group box's enabled flag are both set.

The embedding below is a direct state-passing translation: each method
of `ControlPanel` becomes a function on a `ControlPanel` structure, and
signal emissions (`transform_requested`, `reset_transform_requested`)
become explicit lists of events returned beside the new state.  Python
exceptions (`dx, dy = value` failing to unpack) are modelled with
`Except`.  Qt's `blockSignals(True)` bracketing is modelled by the
`emitUnlessBlocked` combinator: a value pushed into a control while
signals are blocked runs no connected handler and emits nothing.
Numeric fields use `Rat` (the Python floats involved in the claims are
exact).
-/

/-- A Python value carried in the third slot of the
`transform_requested(str, str, object)` signal: `None`, numbers, a
`(dx, dy)` pair, a bool, or a list of fragment ids (group rotation). -/
inductive PyValue where
  | none
  | int (n : Int)
  | real (q : Rat)
  | pair (dx dy : Rat)
  | bool (b : Bool)
  | ids (l : List String)
deriving DecidableEq

/-- The attributes of `Fragment` (external entity, `..core.fragment`)
consumed by the control panel. -/
structure Fragment where
  id : String
  name : String
  original_size : Nat × Nat
  file_path : String
  x : Rat
  y : Rat
  rotation : Rat
  flip_horizontal : Bool
  flip_vertical : Bool
  visible : Bool
  opacity : Rat
deriving DecidableEq

/-- One emission of the `transform_requested(fragment_id, transform_type,
value)` signal. -/
structure Event where
  fragment_id : String
  transform_type : String
  value : PyValue
deriving DecidableEq

/-- The control panel state: the selection fields set in `__init__` /
`set_selected_fragment` / `set_selected_fragments`, plus the state of
every child widget the code touches (enabled flag, displayed value or
text, stylesheet).  Group-box enabled flags model
`QGroupBox.setEnabled`. -/
structure ControlPanel where
  current_fragment : Option Fragment
  selected_fragment_ids : List String
  is_group_selected : Bool
  transform_group_enabled : Bool
  position_group_enabled : Bool
  display_group_enabled : Bool
  name_label : String
  size_label : String
  file_label : String
  rotate_cw_btn_enabled : Bool
  rotate_ccw_btn_enabled : Bool
  angle_spinbox_enabled : Bool
  angle_spinbox_value : Rat
  angle_45_btn_enabled : Bool
  angle_neg45_btn_enabled : Bool
  flip_h_btn_enabled : Bool
  flip_h_btn_style : String
  flip_v_btn_enabled : Bool
  flip_v_btn_style : String
  x_spinbox_enabled : Bool
  x_spinbox_value : Rat
  y_spinbox_enabled : Bool
  y_spinbox_value : Rat
  up_btn_enabled : Bool
  down_btn_enabled : Bool
  left_btn_enabled : Bool
  right_btn_enabled : Bool
  center_btn_enabled : Bool
  visible_checkbox_enabled : Bool
  visible_checkbox_checked : Bool
  opacity_slider_enabled : Bool
  opacity_slider_value : Int
  opacity_label : String
deriving DecidableEq

/-- Python's `int()` applied to a rational: truncation toward zero. -/
def pyInt (q : Rat) : Int := if q < 0 then -((-q).floor) else q.floor

/-- Qt effective enablement: a child widget inside a group box is
clickable iff the group box and the widget itself are both enabled. -/
def effectiveEnabled (groupBoxEnabled widgetEnabled : Bool) : Bool :=
  groupBoxEnabled && widgetEnabled

/-- The event list produced by `request_transform` (source lines
346-361).  The group-translate branch's `dx, dy = value` unpacking
raises `TypeError` when `value` is not a pair, modelled by `Except`. -/
def request_transform_events (p : ControlPanel) (transform_type : String)
    (value : PyValue) : Except String (List Event) :=
  if p.is_group_selected then
    if transform_type ∈ ["rotate_cw", "rotate_ccw"] then
      Except.ok [⟨"group", transform_type, PyValue.ids p.selected_fragment_ids⟩]
    else if transform_type = "translate" then
      match value with
      | PyValue.pair _ _ =>
          Except.ok (p.selected_fragment_ids.map fun fragment_id =>
            ⟨fragment_id, transform_type, value⟩)
      | _ => Except.error "TypeError: cannot unpack non-sequence value"
    else
      Except.ok []
  else
    match p.current_fragment with
    | some f => Except.ok [⟨f.id, transform_type, value⟩]
    | none => Except.ok []

/-- `ControlPanel.request_transform`: the method never writes any panel
field, so the post-state it returns is the input panel unchanged. -/
def request_transform (p : ControlPanel) (transform_type : String)
    (value : PyValue := PyValue.none) :
    Except String (ControlPanel × List Event) :=
  (request_transform_events p transform_type value).map fun evs => (p, evs)

/-- `ControlPanel.request_reset` (source lines 363-370): emissions on the
`reset_transform_requested(str)` channel; no panel field is written. -/
def request_reset (p : ControlPanel) : ControlPanel × List String :=
  if p.is_group_selected then (p, p.selected_fragment_ids)
  else
    match p.current_fragment with
    | some f => (p, [f.id])
    | none => (p, [])

/-- `ControlPanel.on_position_changed` (source lines 372-378): reads the
two spin boxes and requests a relative translate by the difference to
the fragment's current position. -/
def on_position_changed (p : ControlPanel) :
    Except String (ControlPanel × List Event) :=
  match p.current_fragment with
  | some f =>
      request_transform p "translate"
        (PyValue.pair (p.x_spinbox_value - f.x) (p.y_spinbox_value - f.y))
  | none => Except.ok (p, [])

/-- `ControlPanel.on_visibility_changed` (source lines 380-384):
`Qt.CheckState.Checked.value = 2`. -/
def on_visibility_changed (p : ControlPanel) (state : Int) :
    ControlPanel × List Event :=
  match p.current_fragment with
  | some f => (p, [⟨f.id, "set_visibility", PyValue.bool (state == 2)⟩])
  | none => (p, [])

/-- `ControlPanel.on_opacity_changed` (source lines 386-391): writes the
referenced fragment's `opacity` field and the percentage label directly;
no signal emission occurs in this handler. -/
def on_opacity_changed (p : ControlPanel) (value : Int) :
    ControlPanel × List Event :=
  match p.current_fragment with
  | some f =>
      ({ p with
          current_fragment := some { f with opacity := (value : Rat) / 100 },
          opacity_label := s!"{value}%" }, [])
  | none => (p, [])

/-- `ControlPanel.on_angle_changed` (source lines 393-397). -/
def on_angle_changed (p : ControlPanel) :
    Except String (ControlPanel × List Event) :=
  match p.current_fragment with
  | some _ =>
      request_transform p "set_rotation" (PyValue.real p.angle_spinbox_value)
  | none => Except.ok (p, [])

/-- Arrow button wiring (source line 167): `translate (0, -10)`. -/
def up_btn_clicked (p : ControlPanel) :
    Except String (ControlPanel × List Event) :=
  request_transform p "translate" (PyValue.pair 0 (-10))

/-- Arrow button wiring (source line 186): `translate (0, 10)`. -/
def down_btn_clicked (p : ControlPanel) :
    Except String (ControlPanel × List Event) :=
  request_transform p "translate" (PyValue.pair 0 10)

/-- Arrow button wiring (source line 172): `translate (-10, 0)`. -/
def left_btn_clicked (p : ControlPanel) :
    Except String (ControlPanel × List Event) :=
  request_transform p "translate" (PyValue.pair (-10) 0)

/-- Arrow button wiring (source line 181): `translate (10, 0)`. -/
def right_btn_clicked (p : ControlPanel) :
    Except String (ControlPanel × List Event) :=
  request_transform p "translate" (PyValue.pair 10 0)

/-- Center button wiring (source line 177): `translate (0, 0)`. -/
def center_btn_clicked (p : ControlPanel) :
    Except String (ControlPanel × List Event) :=
  request_transform p "translate" (PyValue.pair 0 0)

/-- `ControlPanel.update_transform_button_states` (source lines 328-344):
highlights the flip buttons according to the fragment's flip flags. -/
def update_transform_button_states (p : ControlPanel) : ControlPanel :=
  match p.current_fragment with
  | none => p
  | some fragment =>
      { p with
          flip_h_btn_style :=
            if fragment.flip_horizontal then
              "QPushButton \x7b background-color: #4a90e2; \x7d"
            else "",
          flip_v_btn_style :=
            if fragment.flip_vertical then
              "QPushButton \x7b background-color: #4a90e2; \x7d"
            else "" }

/-- Qt signal semantics for a value pushed into a control by the panel
itself: when `blockSignals(True)` is in force the connected handler does
not run and nothing is emitted. -/
def emitUnlessBlocked (signalsBlocked : Bool) (handlerEvents : List Event) :
    List Event :=
  if signalsBlocked then [] else handlerEvents

/-- Helper to read the event component of a handler result. -/
def eventsOfE : Except String (ControlPanel × List Event) → List Event
  | Except.ok r => r.2
  | Except.error _ => []

/-- `ControlPanel.update_controls` (source lines 230-326).  The second
component is the list of `transform_requested` emissions caused by the
refresh: every `setValue`/`setChecked` in the single-fragment branch is
bracketed by `blockSignals(True)` ... `blockSignals(False)` (source
lines 296-317), so each write contributes
`emitUnlessBlocked true _ = []`. -/
def update_controls (p : ControlPanel) : ControlPanel × List Event :=
  let has_fragment := p.current_fragment.isSome || p.is_group_selected
  let p1 := { p with
    transform_group_enabled := has_fragment,
    position_group_enabled := has_fragment && !p.is_group_selected,
    display_group_enabled := has_fragment }
  if p1.is_group_selected then
    let n := p1.selected_fragment_ids.length
    ({ p1 with
        name_label := s!"Group Selection ({n} fragments)",
        size_label := "Size: Multiple",
        file_label := "File: Multiple",
        rotate_cw_btn_enabled := true,
        rotate_ccw_btn_enabled := true,
        angle_spinbox_enabled := false,
        angle_45_btn_enabled := false,
        angle_neg45_btn_enabled := false,
        x_spinbox_enabled := false,
        y_spinbox_enabled := false,
        flip_h_btn_enabled := false,
        flip_v_btn_enabled := false,
        up_btn_enabled := true,
        down_btn_enabled := true,
        left_btn_enabled := true,
        right_btn_enabled := true,
        center_btn_enabled := true,
        visible_checkbox_enabled := false,
        opacity_slider_enabled := false }, [])
  else
    match p1.current_fragment with
    | some fragment =>
        let short := fragment.id.take 8
        let displayName :=
          if fragment.name = "" then s!"Fragment {short}" else fragment.name
        let w := fragment.original_size.1
        let h := fragment.original_size.2
        let fp := fragment.file_path
        let opct := pyInt (fragment.opacity * 100)
        let p2 := { p1 with
          angle_spinbox_enabled := true,
          angle_45_btn_enabled := true,
          angle_neg45_btn_enabled := true,
          rotate_cw_btn_enabled := true,
          rotate_ccw_btn_enabled := true,
          flip_h_btn_enabled := true,
          flip_v_btn_enabled := true,
          x_spinbox_enabled := true,
          y_spinbox_enabled := true,
          name_label := displayName,
          size_label := s!"Size: {w} × {h}",
          file_label := s!"File: {fp}",
          visible_checkbox_enabled := true,
          opacity_slider_enabled := true,
          x_spinbox_value := fragment.x,
          y_spinbox_value := fragment.y,
          angle_spinbox_value := fragment.rotation,
          visible_checkbox_checked := fragment.visible,
          opacity_slider_value := opct,
          opacity_label := s!"{opct}%" }
        let refreshEvents :=
          emitUnlessBlocked true (eventsOfE (on_position_changed p2)) ++
          emitUnlessBlocked true (eventsOfE (on_position_changed p2)) ++
          emitUnlessBlocked true (eventsOfE (on_angle_changed p2)) ++
          emitUnlessBlocked true
            (on_visibility_changed p2 (if fragment.visible then 2 else 0)).2 ++
          emitUnlessBlocked true (on_opacity_changed p2 opct).2
        (update_transform_button_states p2, refreshEvents)
    | none =>
        ({ p1 with
            name_label := "No selection",
            size_label := "Size: -",
            file_label := "File: -" }, [])

/-- `ControlPanel.set_selected_fragment` (source lines 216-221). -/
def set_selected_fragment (p : ControlPanel) (fragment : Option Fragment) :
    ControlPanel × List Event :=
  update_controls { p with
    current_fragment := fragment,
    selected_fragment_ids := [],
    is_group_selected := false }

/-- `ControlPanel.set_selected_fragments` (source lines 223-228):
`fragments[0] if fragments else None` is `List.head?`. -/
def set_selected_fragments (p : ControlPanel) (fragment_ids : List String)
    (fragments : List Fragment) : ControlPanel × List Event :=
  update_controls { p with
    selected_fragment_ids := fragment_ids,
    is_group_selected := decide (fragment_ids.length > 1),
    current_fragment := fragments.head? }

/-- The widget state right after `setup_ui` (Qt defaults: widgets
enabled, spin boxes at 0, the opacity slider explicitly set to 100 at
source line 206, labels as constructed in `setup_info_group`). -/
def setupPanel : ControlPanel where
  current_fragment := none
  selected_fragment_ids := []
  is_group_selected := false
  transform_group_enabled := true
  position_group_enabled := true
  display_group_enabled := true
  name_label := "No fragment selected"
  size_label := "Size: -"
  file_label := "File: -"
  rotate_cw_btn_enabled := true
  rotate_ccw_btn_enabled := true
  angle_spinbox_enabled := true
  angle_spinbox_value := 0
  angle_45_btn_enabled := true
  angle_neg45_btn_enabled := true
  flip_h_btn_enabled := true
  flip_h_btn_style := ""
  flip_v_btn_enabled := true
  flip_v_btn_style := ""
  x_spinbox_enabled := true
  x_spinbox_value := 0
  y_spinbox_enabled := true
  y_spinbox_value := 0
  up_btn_enabled := true
  down_btn_enabled := true
  left_btn_enabled := true
  right_btn_enabled := true
  center_btn_enabled := true
  visible_checkbox_enabled := true
  visible_checkbox_checked := false
  opacity_slider_enabled := true
  opacity_slider_value := 100
  opacity_label := "100%"

/-- The panel state after `__init__` (which runs `setup_ui` and then
`update_controls`). -/
def initPanel : ControlPanel := (update_controls setupPanel).1

/-- A sample fragment used for concrete evaluations. -/
def fragA : Fragment where
  id := "a"
  name := "Fragment A"
  original_size := (100, 80)
  file_path := "a.png"
  x := 10
  y := 3
  rotation := 0
  flip_horizontal := false
  flip_vertical := false
  visible := true
  opacity := 1

/-- A second sample fragment used for concrete evaluations. -/
def fragB : Fragment where
  id := "b"
  name := "Fragment B"
  original_size := (50, 40)
  file_path := "b.png"
  x := 0
  y := 0
  rotation := 0
  flip_horizontal := false
  flip_vertical := false
  visible := true
  opacity := 1

/-- The panel after a two-fragment group selection. -/
def groupPanel : ControlPanel :=
  (set_selected_fragments initPanel ["a", "b"] [fragA, fragB]).1

/-- The panel after selecting the single fragment `fragA`. -/
def singlePanel : ControlPanel :=
  (set_selected_fragment initPanel (some fragA)).1

/-- `singlePanel` after the user types 15 into the X spin box (a user
edit writes the spin box value; `valueChanged` then runs
`on_position_changed` on this state). -/
def editedPanel : ControlPanel := { singlePanel with x_spinbox_value := 15 }

section HelperLemmas

/-- `update_transform_button_states` writes only the two stylesheet
fields. -/
lemma update_transform_button_states_fields (p : ControlPanel) :
    (update_transform_button_states p).selected_fragment_ids =
        p.selected_fragment_ids ∧
    (update_transform_button_states p).is_group_selected =
        p.is_group_selected ∧
    (update_transform_button_states p).current_fragment =
        p.current_fragment := by
  unfold update_transform_button_states
  cases hc : p.current_fragment <;> simp [hc]

/-- `update_controls` writes only widget fields, never the selection
fields. -/
lemma update_controls_fields (p : ControlPanel) :
    (update_controls p).1.selected_fragment_ids = p.selected_fragment_ids ∧
    (update_controls p).1.is_group_selected = p.is_group_selected ∧
    (update_controls p).1.current_fragment = p.current_fragment := by
  unfold update_controls
  by_cases hg : p.is_group_selected
  · simp [hg]
  · cases hc : p.current_fragment <;>
      simp [hg, hc, update_transform_button_states]

/-- `request_transform` returns its input panel unchanged whenever it
does not raise. -/
lemma request_transform_ok_state {p : ControlPanel} {t : String}
    {v : PyValue} {p' : ControlPanel} {evs : List Event}
    (h : request_transform p t v = Except.ok (p', evs)) : p' = p := by
  unfold request_transform at h
  cases he : request_transform_events p t v with
  | ok es =>
      rw [he] at h
      simp [Except.map] at h
      exact h.1.symm
  | error e =>
      rw [he] at h
      simp [Except.map] at h

/-- `on_position_changed` returns its input panel unchanged whenever it
does not raise. -/
lemma on_position_changed_ok_state {p p' : ControlPanel} {evs : List Event}
    (h : on_position_changed p = Except.ok (p', evs)) : p' = p := by
  unfold on_position_changed at h
  cases hc : p.current_fragment with
  | some f =>
      rw [hc] at h
      exact request_transform_ok_state h
  | none =>
      rw [hc] at h
      simp at h
      exact h.1.symm

/-- `on_angle_changed` returns its input panel unchanged whenever it
does not raise. -/
lemma on_angle_changed_ok_state {p p' : ControlPanel} {evs : List Event}
    (h : on_angle_changed p = Except.ok (p', evs)) : p' = p := by
  unfold on_angle_changed at h
  cases hc : p.current_fragment with
  | some f =>
      rw [hc] at h
      exact request_transform_ok_state h
  | none =>
      rw [hc] at h
      simp at h
      exact h.1.symm

/-- `request_reset` returns its input panel unchanged. -/
lemma request_reset_fst (p : ControlPanel) : (request_reset p).1 = p := by
  unfold request_reset
  by_cases hg : p.is_group_selected
  · simp [hg]
  · cases hc : p.current_fragment <;> simp [hg, hc]

/-- `on_visibility_changed` returns its input panel unchanged. -/
lemma on_visibility_changed_fst (p : ControlPanel) (s : Int) :
    (on_visibility_changed p s).1 = p := by
  unfold on_visibility_changed
  cases hc : p.current_fragment <;> simp

/-- `on_opacity_changed` writes only `current_fragment` and the opacity
label, never the selection-mode fields. -/
lemma on_opacity_changed_fields (p : ControlPanel) (v : Int) :
    (on_opacity_changed p v).1.selected_fragment_ids =
        p.selected_fragment_ids ∧
    (on_opacity_changed p v).1.is_group_selected = p.is_group_selected := by
  unfold on_opacity_changed
  cases hc : p.current_fragment <;> simp

end HelperLemmas

/-- C1: after `set_selected_fragments` with more than one id, the claim
says the arrow-move buttons (up, down, left, right, center) are
effectively enabled and the precise controls effectively disabled.  The
disabled half holds, but the code sets
`position_group.setEnabled(False)` for groups (source line 236), and the
five arrow buttons are children of that group box, so despite
`setEnabled(True)` on each of them (source lines 263-267, comment:
"ENABLE arrow movement buttons for groups") they are effectively
disabled.  This theorem evaluates the code at a two-fragment group
selection and exhibits the divergence. -/
theorem group_selection_arrow_buttons_effectively_disabled :
    groupPanel.up_btn_enabled = true ∧
    groupPanel.down_btn_enabled = true ∧
    groupPanel.left_btn_enabled = true ∧
    groupPanel.right_btn_enabled = true ∧
    groupPanel.center_btn_enabled = true ∧
    groupPanel.position_group_enabled = false ∧
    effectiveEnabled groupPanel.position_group_enabled
      groupPanel.up_btn_enabled = false ∧
    effectiveEnabled groupPanel.position_group_enabled
      groupPanel.down_btn_enabled = false ∧
    effectiveEnabled groupPanel.position_group_enabled
      groupPanel.left_btn_enabled = false ∧
    effectiveEnabled groupPanel.position_group_enabled
      groupPanel.right_btn_enabled = false ∧
    effectiveEnabled groupPanel.position_group_enabled
      groupPanel.center_btn_enabled = false ∧
    effectiveEnabled groupPanel.transform_group_enabled
      groupPanel.angle_spinbox_enabled = false ∧
    effectiveEnabled groupPanel.transform_group_enabled
      groupPanel.angle_45_btn_enabled = false ∧
    effectiveEnabled groupPanel.transform_group_enabled
      groupPanel.angle_neg45_btn_enabled = false ∧
    effectiveEnabled groupPanel.transform_group_enabled
      groupPanel.flip_h_btn_enabled = false ∧
    effectiveEnabled groupPanel.transform_group_enabled
      groupPanel.flip_v_btn_enabled = false ∧
    effectiveEnabled groupPanel.position_group_enabled
      groupPanel.x_spinbox_enabled = false ∧
    effectiveEnabled groupPanel.position_group_enabled
      groupPanel.y_spinbox_enabled = false ∧
    effectiveEnabled groupPanel.display_group_enabled
      groupPanel.visible_checkbox_enabled = false ∧
    effectiveEnabled groupPanel.display_group_enabled
      groupPanel.opacity_slider_enabled = false := by
  decide

/-- C2: with a group (more than one id) selected, `rotate_cw` and
`rotate_ccw` each emit exactly one `transform_requested` event addressed
to the `"group"` marker carrying the full member id list, and
`translate` emits exactly one event per member id, each with the
identical `(dx, dy)` value. -/
theorem group_transform_events (p : ControlPanel)
    (hg : p.is_group_selected = true) :
    (∀ v : PyValue,
      request_transform p "rotate_cw" v =
        Except.ok (p,
          [⟨"group", "rotate_cw", PyValue.ids p.selected_fragment_ids⟩]) ∧
      request_transform p "rotate_ccw" v =
        Except.ok (p,
          [⟨"group", "rotate_ccw", PyValue.ids p.selected_fragment_ids⟩])) ∧
    (∀ dx dy : Rat,
      request_transform p "translate" (PyValue.pair dx dy) =
        Except.ok (p, p.selected_fragment_ids.map fun fragment_id =>
          ⟨fragment_id, "translate", PyValue.pair dx dy⟩)) := by
  refine ⟨fun v => ⟨?_, ?_⟩, fun dx dy => ?_⟩ <;>
    simp +decide [request_transform, request_transform_events, hg, Except.map]

/-- Witness for C2 at the concrete two-member group `groupPanel`. -/
theorem group_transform_events_witness :
    request_transform groupPanel "rotate_cw" PyValue.none =
      Except.ok (groupPanel,
        [⟨"group", "rotate_cw", PyValue.ids ["a", "b"]⟩]) ∧
    request_transform groupPanel "translate" (PyValue.pair 5 0) =
      Except.ok (groupPanel,
        [⟨"a", "translate", PyValue.pair 5 0⟩,
         ⟨"b", "translate", PyValue.pair 5 0⟩]) := by
  obtain ⟨h1, h2⟩ := group_transform_events groupPanel (by decide)
  have hids : groupPanel.selected_fragment_ids = ["a", "b"] := by decide
  constructor
  · have := (h1 PyValue.none).1
    rw [hids] at this
    exact this
  · have := h2 5 0
    rw [hids] at this
    exact this

/-- C10: with a group selected, `request_transform` silently drops every
transform kind outside rotate_cw / rotate_ccw / translate: no event is
emitted, no exception is raised, and the panel state is unchanged. -/
theorem group_drops_other_transforms (p : ControlPanel)
    (hg : p.is_group_selected = true) (t : String)
    (ht : t ∈ ["flip_horizontal", "flip_vertical", "rotate_angle",
               "set_rotation", "set_visibility"]) (v : PyValue) :
    request_transform p t v = Except.ok (p, []) := by
  simp only [List.mem_cons, List.mem_singleton, List.not_mem_nil,
    or_false] at ht
  rcases ht with h | h | h | h | h <;> subst h <;>
    simp +decide [request_transform, request_transform_events, hg,
      Except.map]

/-- Witness for C10 at the concrete group `groupPanel` with a flip
request. -/
theorem group_drops_other_transforms_witness :
    request_transform groupPanel "flip_horizontal" PyValue.none =
      Except.ok (groupPanel, []) :=
  group_drops_other_transforms groupPanel (by decide) "flip_horizontal"
    (by decide) PyValue.none

/-- C3: with a single fragment selected, a position spin box edit emits
exactly one relative translate event whose delta is
`(newValue - fragment.currentValue)` on each axis — never an absolute
position set. -/
theorem position_edit_emits_relative_delta (p : ControlPanel)
    (f : Fragment) (hf : p.current_fragment = some f)
    (hg : p.is_group_selected = false) :
    on_position_changed p =
      Except.ok (p,
        [⟨f.id, "translate",
          PyValue.pair (p.x_spinbox_value - f.x)
            (p.y_spinbox_value - f.y)⟩]) := by
  simp [on_position_changed, request_transform, request_transform_events,
    hf, hg, Except.map]

/-- Witness for C3: the selected fragment sits at x = 10 and the X field
is edited to 15 with Y untouched; the emitted delta is (5, 0). -/
theorem position_edit_emits_relative_delta_witness :
    on_position_changed editedPanel =
      Except.ok (editedPanel,
        [⟨"a", "translate", PyValue.pair 5 0⟩]) := by
  have h := position_edit_emits_relative_delta editedPanel fragA
    (by decide) (by decide)
  have hx : editedPanel.x_spinbox_value - fragA.x = 5 := by
    have e1 : editedPanel.x_spinbox_value = 15 := rfl
    have e2 : fragA.x = 10 := rfl
    rw [e1, e2]; norm_num
  have hy : editedPanel.y_spinbox_value - fragA.y = 0 := by
    have e1 : editedPanel.y_spinbox_value = 3 := by decide
    have e2 : fragA.y = 3 := rfl
    rw [e1, e2]; norm_num
  have hid : fragA.id = "a" := rfl
  rw [hx, hy, hid] at h
  exact h

/-- C5: with a single fragment selected, moving the opacity slider to
`v` writes `v / 100` into the referenced fragment's `opacity` field and
`"v%"` into the percentage label, and emits no `transform_requested`
event. -/
theorem opacity_change_mutates_fragment_locally (p : ControlPanel)
    (f : Fragment) (hf : p.current_fragment = some f) (v : Int) :
    on_opacity_changed p v =
      ({ p with
          current_fragment := some { f with opacity := (v : Rat) / 100 },
          opacity_label := s!"{v}%" }, []) := by
  simp [on_opacity_changed, hf]

/-- Witness for C5: slider at 50 on the selected `fragA` yields opacity
1/2 and label "50%" with no event. -/
theorem opacity_change_mutates_fragment_locally_witness :
    on_opacity_changed singlePanel 50 =
      ({ singlePanel with
          current_fragment := some { fragA with opacity := 1 / 2 },
          opacity_label := "50%" }, []) := by
  have h := opacity_change_mutates_fragment_locally singlePanel fragA
    (by decide) 50
  have hq : ((50 : Int) : Rat) / 100 = 1 / 2 := by norm_num
  rw [hq] at h
  exact h

/-- C6: with no fragment and no group selected, `request_transform` (for
every transform kind and value) and `request_reset` emit nothing, change
nothing, and raise no error. -/
theorem no_selection_operations_emit_nothing (p : ControlPanel)
    (hn : p.current_fragment = none) (hg : p.is_group_selected = false) :
    (∀ (t : String) (v : PyValue),
        request_transform p t v = Except.ok (p, [])) ∧
    request_reset p = (p, []) := by
  constructor
  · intro t v
    simp [request_transform, request_transform_events, hn, hg, Except.map]
  · simp [request_reset, hn, hg]

/-- Witness for C6 at the freshly initialised panel, which has no
selection. -/
theorem no_selection_operations_emit_nothing_witness :
    request_transform initPanel "rotate_cw" PyValue.none =
      Except.ok (initPanel, []) ∧
    request_reset initPanel = (initPanel, []) := by
  obtain ⟨h1, h2⟩ := no_selection_operations_emit_nothing initPanel
    (by decide) (by decide)
  exact ⟨h1 "rotate_cw" PyValue.none, h2⟩

/-- C7: `set_selected_fragment` (for any fragment or `none`) emits no
`transform_requested` event — every value pushed into a control during
the refresh sits inside a `blockSignals(True)` bracket — and, when a
fragment is given, the displayed position, angle, visibility and opacity
control values are refreshed from the fragment's current fields.  (The
method contains no `reset_transform_requested` emission at all, as its
result type records.) -/
theorem set_selected_fragment_refreshes_without_events (p : ControlPanel)
    (fr : Option Fragment) :
    (set_selected_fragment p fr).2 = [] ∧
    ∀ f : Fragment, fr = some f →
      (set_selected_fragment p fr).1.x_spinbox_value = f.x ∧
      (set_selected_fragment p fr).1.y_spinbox_value = f.y ∧
      (set_selected_fragment p fr).1.angle_spinbox_value = f.rotation ∧
      (set_selected_fragment p fr).1.visible_checkbox_checked = f.visible ∧
      (set_selected_fragment p fr).1.opacity_slider_value =
        pyInt (f.opacity * 100) := by
  constructor
  · cases fr <;>
      simp [set_selected_fragment, update_controls, emitUnlessBlocked]
  · intro f hfr
    subst hfr
    simp [set_selected_fragment, update_controls,
      update_transform_button_states]

/-- Witness for C7 at the concrete selection of `fragA`. -/
theorem set_selected_fragment_refreshes_without_events_witness :
    (set_selected_fragment initPanel (some fragA)).2 = [] ∧
    (set_selected_fragment initPanel (some fragA)).1.x_spinbox_value =
      fragA.x := by
  have h := set_selected_fragment_refreshes_without_events initPanel
    (some fragA)
  exact ⟨h.1, (h.2 fragA rfl).1⟩

/-- The fragment ids a translate request fans out to: every group
member in group mode, the single selected fragment otherwise. -/
def translate_targets (p : ControlPanel) : List String :=
  if p.is_group_selected then p.selected_fragment_ids
  else
    match p.current_fragment with
    | some f => [f.id]
    | none => []

/-- C8: for every selection state, the arrow buttons request fixed
10-unit translations along exactly one axis — up `(0, -10)`, down
`(0, 10)`, left `(-10, 0)`, right `(10, 0)` — and the center button
requests `translate (0, 0)`; each click emits one such event per
targeted fragment and nothing else. -/
theorem arrow_buttons_fixed_deltas (p : ControlPanel) :
    up_btn_clicked p =
      Except.ok (p, (translate_targets p).map fun i =>
        ⟨i, "translate", PyValue.pair 0 (-10)⟩) ∧
    down_btn_clicked p =
      Except.ok (p, (translate_targets p).map fun i =>
        ⟨i, "translate", PyValue.pair 0 10⟩) ∧
    left_btn_clicked p =
      Except.ok (p, (translate_targets p).map fun i =>
        ⟨i, "translate", PyValue.pair (-10) 0⟩) ∧
    right_btn_clicked p =
      Except.ok (p, (translate_targets p).map fun i =>
        ⟨i, "translate", PyValue.pair 10 0⟩) ∧
    center_btn_clicked p =
      Except.ok (p, (translate_targets p).map fun i =>
        ⟨i, "translate", PyValue.pair 0 0⟩) := by
  by_cases hg : p.is_group_selected
  · refine ⟨?_, ?_, ?_, ?_, ?_⟩ <;>
      simp +decide [up_btn_clicked, down_btn_clicked, left_btn_clicked,
        right_btn_clicked, center_btn_clicked, request_transform,
        request_transform_events, translate_targets, hg, Except.map]
  · cases hc : p.current_fragment <;>
      refine ⟨?_, ?_, ?_, ?_, ?_⟩ <;>
        simp +decide [up_btn_clicked, down_btn_clicked, left_btn_clicked,
          right_btn_clicked, center_btn_clicked, request_transform,
          request_transform_events, translate_targets, hg, hc, Except.map]

/-- C9: the inbound calls are total over empty inputs:
`set_selected_fragments` with empty id and fragment lists (the
first-fragment lookup is guarded) and `set_selected_fragment` with
`none` both land in the no-selection display fallback. -/
theorem empty_selection_fallback_text (p : ControlPanel) :
    ((set_selected_fragments p [] []).1.name_label = "No selection" ∧
     (set_selected_fragments p [] []).1.size_label = "Size: -" ∧
     (set_selected_fragments p [] []).1.file_label = "File: -") ∧
    ((set_selected_fragment p none).1.name_label = "No selection" ∧
     (set_selected_fragment p none).1.size_label = "Size: -" ∧
     (set_selected_fragment p none).1.file_label = "File: -") := by
  refine ⟨⟨?_, ?_, ?_⟩, ⟨?_, ?_, ?_⟩⟩ <;>
    simp [set_selected_fragments, set_selected_fragment, update_controls]

/-- Panel states reachable from `__init__` by the panel's operations:
the two inbound selection calls, the internal refresh methods, and
every signal handler / request method (those that can raise contribute
their post-state only when they return normally). -/
inductive Reachable : ControlPanel → Prop where
  | init : Reachable initPanel
  | select (p : ControlPanel) (fr : Option Fragment) :
      Reachable p → Reachable (set_selected_fragment p fr).1
  | selectGroup (p : ControlPanel) (ids : List String)
      (frags : List Fragment) :
      Reachable p → Reachable (set_selected_fragments p ids frags).1
  | refresh (p : ControlPanel) :
      Reachable p → Reachable (update_controls p).1
  | buttons (p : ControlPanel) :
      Reachable p → Reachable (update_transform_button_states p)
  | transform (p : ControlPanel) (t : String) (v : PyValue)
      (p' : ControlPanel) (evs : List Event) :
      Reachable p → request_transform p t v = Except.ok (p', evs) →
      Reachable p'
  | reset (p : ControlPanel) :
      Reachable p → Reachable (request_reset p).1
  | posChanged (p p' : ControlPanel) (evs : List Event) :
      Reachable p → on_position_changed p = Except.ok (p', evs) →
      Reachable p'
  | visChanged (p : ControlPanel) (s : Int) :
      Reachable p → Reachable (on_visibility_changed p s).1
  | opacityChanged (p : ControlPanel) (v : Int) :
      Reachable p → Reachable (on_opacity_changed p v).1
  | angleChanged (p p' : ControlPanel) (evs : List Event) :
      Reachable p → on_angle_changed p = Except.ok (p', evs) →
      Reachable p'

/-- C4: in every reachable panel state, group mode is active iff the
selection id list has more than one element.  `set_selected_fragment`
clears the id list and the flag, `set_selected_fragments` sets the flag
to `len(ids) > 1`, and no other operation writes either field. -/
theorem group_mode_iff_multi_selection (p : ControlPanel)
    (hp : Reachable p) :
    p.is_group_selected = true ↔ 1 < p.selected_fragment_ids.length := by
  induction hp with
  | init => decide
  | select q fr _ _ =>
      have h := update_controls_fields { q with
        current_fragment := fr,
        selected_fragment_ids := [],
        is_group_selected := false }
      simp [set_selected_fragment, h.1, h.2.1]
  | selectGroup q ids frags _ _ =>
      have h := update_controls_fields { q with
        selected_fragment_ids := ids,
        is_group_selected := decide (ids.length > 1),
        current_fragment := frags.head? }
      simp [set_selected_fragments, h.1, h.2.1]
  | refresh q _ ih =>
      have h := update_controls_fields q
      rw [h.2.1, h.1]
      exact ih
  | buttons q _ ih =>
      have h := update_transform_button_states_fields q
      rw [h.2.1, h.1]
      exact ih
  | transform q t v q' evs _ heq ih =>
      rw [request_transform_ok_state heq]
      exact ih
  | reset q _ ih =>
      rw [request_reset_fst q]
      exact ih
  | posChanged q q' evs _ heq ih =>
      rw [on_position_changed_ok_state heq]
      exact ih
  | visChanged q s _ ih =>
      rw [on_visibility_changed_fst q s]
      exact ih
  | opacityChanged q v _ ih =>
      have h := on_opacity_changed_fields q v
      rw [h.2, h.1]
      exact ih
  | angleChanged q q' evs _ heq ih =>
      rw [on_angle_changed_ok_state heq]
      exact ih

/-- Witness for C4: the invariant instantiated at the concrete reachable
state obtained by a two-fragment group selection from the initial
panel. -/
theorem group_mode_iff_multi_selection_witness :
    groupPanel.is_group_selected = true ↔
      1 < groupPanel.selected_fragment_ids.length :=
  group_mode_iff_multi_selection groupPanel
    (Reachable.selectGroup initPanel ["a", "b"] [fragA, fragB]
      Reachable.init)
